import Mathlib

/-!
Shallow embedding of the two validation utilities of this repository:
`validation/check_hardcoded_values.py` (hardcoded-value checker) and
`validation/validate_configs.py` (config validator), together with theorems
settling the frozen claims about them.

Python strings are modelled as Lean `String`, operated on through their
character lists (all helpers are structurally recursive so that concrete
runs reduce inside the kernel).  Python's `None`/bool/int/str/dict/list
value universe for parsed YAML documents is the inductive type `Yaml`.
Operations that can raise in Python (attribute errors on wrongly-typed
values) return `Except String`; the exception message mirrors CPython's
`AttributeError` rendering.
-/

namespace PyStr

/-- Characters removed by Python's `str.strip()` with no arguments. -/
def isPySpace (c : Char) : Bool :=
  c == ' ' || c == '\t' || c == '\n' || c == '\r' || c == '\x0b' || c == '\x0c'

/-- Python `str.strip()`: drop leading and trailing whitespace. -/
def pyStrip (s : String) : String :=
  String.mk (((s.toList.dropWhile isPySpace).reverse.dropWhile isPySpace).reverse)

/-- Boolean list-prefix check (used for `str.startswith` and substring search). -/
def isPrefixOfB : List Char → List Char → Bool
  | [], _ => true
  | _ :: _, [] => false
  | a :: as, b :: bs => a == b && isPrefixOfB as bs

/-- Boolean contiguous-sublist check: Python `needle in hay` on strings. -/
def isSubList (needle : List Char) : List Char → Bool
  | [] => needle.isEmpty
  | hay@(_ :: t) => isPrefixOfB needle hay || isSubList needle t

/-- Python `needle in hay` substring containment. -/
def pyContains (hay needle : String) : Bool :=
  isSubList needle.toList hay.toList

/-- Python `s.startswith(p)`. -/
def pyStartsWith (s p : String) : Bool :=
  isPrefixOfB p.toList s.toList

/-- Python `s.endswith(p)` (used for the translated glob pattern). -/
def pyEndsWith (s p : String) : Bool :=
  isPrefixOfB p.toList.reverse s.toList.reverse

/-- Python `str.lower()` (ASCII case mapping, as used by the sources). -/
def pyLowerString (s : String) : String :=
  String.mk (s.toList.map Char.toLower)

def splitCharAux (c : Char) : List Char → List Char → List String
  | [], acc => [String.mk acc.reverse]
  | x :: xs, acc =>
      if x == c then String.mk acc.reverse :: splitCharAux c xs []
      else splitCharAux c xs (x :: acc)

/-- Python `s.split(c)` for a single-character separator (the only form the
sources use: `split('|')` and `split('.')`). -/
def pySplit (s : String) (c : Char) : List String :=
  splitCharAux c s.toList []

def digitVal (c : Char) : Option Nat :=
  if '0' ≤ c && c ≤ '9' then some (c.toNat - 48) else none

def parseDigitsAux : List Char → Nat → Option Nat
  | [], acc => some acc
  | c :: cs, acc =>
      match digitVal c with
      | some d => parseDigitsAux cs (acc * 10 + d)
      | none => none

def parseDigits : List Char → Option Nat
  | [] => none
  | cs => parseDigitsAux cs 0

/-- Python `int(s)` on a string: optional surrounding whitespace, optional
sign, then decimal digits; `none` models the `ValueError` raise.  (Underscore
digit grouping and non-ASCII digits are not modelled; no input the
repository handles uses them.) -/
def pyInt (s : String) : Option Int :=
  match (pyStrip s).toList with
  | '+' :: rest => (parseDigits rest).map Int.ofNat
  | '-' :: rest => (parseDigits rest).map (fun n => -(Int.ofNat n))
  | rest => (parseDigits rest).map Int.ofNat

end PyStr

open PyStr

/-- Parsed YAML values as `yaml.safe_load` produces them for this repository's
config files: Python `None`, `bool`, `int`, `str`, `dict` (string keys, in
document order) and `list`. -/
inductive Yaml where
  | null
  | bool (b : Bool)
  | int (n : Int)
  | str (s : String)
  | map (entries : List (String × Yaml))
  | list (items : List Yaml)

/-- Python truthiness of a parsed YAML value (`if value:` / `x or {}`). -/
def Yaml.truthy : Yaml → Bool
  | .null => false
  | .bool b => b
  | .int n => n != 0
  | .str s => s != ""
  | .map es => !es.isEmpty
  | .list xs => !xs.isEmpty

/-- The Python type name of a value, as `type(v)` renders it. -/
def pyTypeName : Yaml → String
  | .null => "NoneType"
  | .bool _ => "bool"
  | .int _ => "int"
  | .str _ => "str"
  | .map _ => "dict"
  | .list _ => "list"

/-- `f"{type(value)}"` rendering. -/
def pyType (v : Yaml) : String := "<class '" ++ pyTypeName v ++ "'>"

/-- The message of the `AttributeError` CPython raises when `attr` is called
on a value of the wrong type. -/
def attrError (v : Yaml) (attr : String) : String :=
  "'" ++ pyTypeName v ++ "' object has no attribute '" ++ attr ++ "'"

mutual

/-- Python `repr` of a parsed YAML value. -/
def pyRepr : Yaml → String
  | .null => "None"
  | .bool true => "True"
  | .bool false => "False"
  | .int n => toString n
  | .str s => "'" ++ s ++ "'"
  | .list xs => "[" ++ pyReprList xs ++ "]"
  | .map es => "\x7b" ++ pyReprEntries es ++ "\x7d"

def pyReprList : List Yaml → String
  | [] => ""
  | [x] => pyRepr x
  | x :: xs => pyRepr x ++ ", " ++ pyReprList xs

def pyReprEntries : List (String × Yaml) → String
  | [] => ""
  | [(k, v)] => "'" ++ k ++ "': " ++ pyRepr v
  | (k, v) :: es => "'" ++ k ++ "': " ++ pyRepr v ++ ", " ++ pyReprEntries es

end

/-- Python `str` of a parsed YAML value, as an f-string interpolates it. -/
def pyStrOf : Yaml → String
  | .str s => s
  | v => pyRepr v

/-- Python `d.get(k, dflt)`: dictionary lookup with a default; raises
`AttributeError` on a non-dict receiver. -/
def pyGetD (v : Yaml) (k : String) (dflt : Yaml) : Except String Yaml :=
  match v with
  | .map es => .ok ((es.lookup k).getD dflt)
  | _ => .error (attrError v "get")

/-- Python `v.lower()`: raises `AttributeError` on a non-string. -/
def pyLower (v : Yaml) : Except String String :=
  match v with
  | .str s => .ok (pyLowerString s)
  | _ => .error (attrError v "lower")

namespace ConfigValidation

/-- The validator's mutable state: `self.errors` and `self.warnings`. -/
structure VState where
  errors : List String
  warnings : List String
deriving DecidableEq, Repr

def VState.addError (st : VState) (e : String) : VState :=
  ⟨st.errors ++ [e], st.warnings⟩

def VState.addWarning (st : VState) (w : String) : VState :=
  ⟨st.errors, st.warnings ++ [w]⟩

/-- The result of one pass: the updated state, plus `some msg` when the pass
raised an exception (caught by `validate`'s `except` clause). -/
abbrev PassResult := VState × Option String

/-- Sequencing of passes: a raised exception skips everything after it. -/
def andThen (r : PassResult) (f : VState → PassResult) : PassResult :=
  match r with
  | (st, none) => f st
  | (st, some e) => (st, some e)

/-- `ConfigValidator._get_nested_value`: walk the dotted path's keys through
nested dicts; any missing key or non-dict intermediate yields Python `None`
(modelled as `Yaml.null`), never an exception. -/
def getNestedKeys : Yaml → List String → Yaml
  | v, [] => v
  | .map es, k :: ks =>
      match es.lookup k with
      | some w => getNestedKeys w ks
      | none => .null
  | _, _ :: _ => .null

def getNestedValue (cfg : Yaml) (fieldPath : String) : Yaml :=
  getNestedKeys cfg (pySplit fieldPath '.')

def requiredFields : List String :=
  ["project.name", "project.organization", "platforms", "language"]

/-- `ConfigValidator._validate_required_fields`. -/
def validateRequiredFields (cfg : Yaml) (st : VState) : PassResult :=
  (requiredFields.foldl
    (fun st p =>
      if !(getNestedValue cfg p).truthy then
        st.addError ("Required field missing: " ++ p)
      else st) st, none)

def stringFields : List String :=
  ["project.name", "project.organization", "project.description", "language",
   "framework", "tools.cli", "tools.test_runner", "tools.linter"]

def booleanFields : List String :=
  ["platforms.azure_devops", "platforms.github", "platforms.jira"]

def isYamlStr : Yaml → Bool
  | .str _ => true
  | _ => false

def isYamlBool : Yaml → Bool
  | .bool _ => true
  | _ => false

def isYamlNull : Yaml → Bool
  | .null => true
  | _ => false

/-- `ConfigValidator._validate_data_types`. -/
def validateDataTypes (cfg : Yaml) (st : VState) : PassResult :=
  let st := stringFields.foldl
    (fun st p =>
      let value := getNestedValue cfg p
      if !isYamlNull value && !isYamlStr value then
        st.addError ("Field " ++ p ++ " must be a string, got " ++ pyType value)
      else st) st
  let st := booleanFields.foldl
    (fun st p =>
      let value := getNestedValue cfg p
      if !isYamlNull value && !isYamlBool value then
        st.addError ("Field " ++ p ++ " must be a boolean, got " ++ pyType value)
      else st) st
  (st, none)

/-- Python `v is True`: identity with the `True` singleton, not truthiness. -/
def isTrueBool : Yaml → Bool
  | .bool true => true
  | _ => false

/-- `platforms.get(k)` inside the platform pass (the receiver is already
known to be a dict there). -/
def pyLookup (es : List (String × Yaml)) (k : String) : Yaml :=
  (es.lookup k).getD .null

/-- `ConfigValidator._validate_azure_devops_config`. -/
def validateAzureDevopsConfig (cfg : Yaml) (st : VState) : PassResult :=
  match pyGetD cfg "azure_devops" (.map []) with
  | .error e => (st, some e)
  | .ok ac =>
      (if !ac.truthy then
        st.addWarning "Azure DevOps is enabled but no specific configuration provided"
      else st, none)

/-- `ConfigValidator._validate_github_config`. -/
def validateGithubConfig (cfg : Yaml) (st : VState) : PassResult :=
  match pyGetD cfg "github" (.map []) with
  | .error e => (st, some e)
  | .ok gc =>
      (if !gc.truthy then
        st.addWarning "GitHub is enabled but no specific configuration provided"
      else st, none)

/-- `ConfigValidator._validate_jira_config`. -/
def validateJiraConfig (cfg : Yaml) (st : VState) : PassResult :=
  match pyGetD cfg "jira" (.map []) with
  | .error e => (st, some e)
  | .ok jc =>
      (if !jc.truthy then
        st.addWarning "Jira is enabled but no specific configuration provided"
      else st, none)

/-- One conditional `self.warnings.append(...)` statement. -/
def warnStep (c : Bool) (w : String) (st : VState) : PassResult :=
  (if c then st.addWarning w else st, none)

/-- The body of `_validate_platform_config` once `platforms` is known to be a
dict: the no-platforms warning, then the three conditional sub-checks, in
source order. -/
def platformBody (cfg : Yaml) (pes : List (String × Yaml)) : VState → PassResult :=
  fun st =>
    andThen (warnStep
      (pes.filterMap (fun kv => if isTrueBool kv.2 then some kv.1 else none)).isEmpty
      "No platforms are enabled. Consider enabling at least one platform." st) fun st =>
    andThen (if (pyLookup pes "azure_devops").truthy then
        validateAzureDevopsConfig cfg st else (st, none)) fun st =>
    andThen (if (pyLookup pes "github").truthy then
        validateGithubConfig cfg st else (st, none)) fun st =>
    (if (pyLookup pes "jira").truthy then
        validateJiraConfig cfg st else (st, none))

/-- `ConfigValidator._validate_platform_config`.  `platforms.items()` raises
on a non-dict `platforms` value; `[k for k, v in ... if v is True]` keeps
only keys whose value is exactly the boolean `True`. -/
def validatePlatformConfig (cfg : Yaml) (st : VState) : PassResult :=
  match pyGetD cfg "platforms" (.map []) with
  | .error e => (st, some e)
  | .ok (.map pes) => platformBody cfg pes st
  | .ok platforms => (st, some (attrError platforms "items"))

/-- `ConfigValidator._is_valid_python_version`: `major, minor = map(int,
version.split('.')[:2])`; any `ValueError`/`AttributeError` (non-string
value, too few parts, non-numeric part) is caught and yields `False`. -/
def isValidPythonVersion : Yaml → Bool
  | .str version =>
      match (pySplit version '.').take 2 with
      | [a, b] =>
          match pyInt a, pyInt b with
          | some major, some minor => major == 3 && minor >= 8
          | _, _ => false
      | _ => false
  | _ => false

/-- `ConfigValidator._is_valid_dotnet_version` (same try/except shape). -/
def isValidDotnetVersion : Yaml → Bool
  | .str version =>
      match (pySplit version '.').take 2 with
      | [a, b] =>
          match pyInt a, pyInt b with
          | some major, some minor =>
              (major == 6 && minor >= 0) || (major == 7 && minor >= 0) ||
                (major == 8 && minor >= 0)
          | _, _ => false
      | _ => false
  | _ => false

def ltsVersions : List String := ["8", "11", "17", "21"]

/-- `ConfigValidator._is_valid_java_version`: no try/except here.  For a
non-string value, `version in lts_versions` is `False` (list membership uses
equality, no raise) but `version.startswith(...)` then raises
`AttributeError`, which propagates. -/
def isValidJavaVersion : Yaml → Except String Bool
  | .str version =>
      .ok (ltsVersions.contains version ||
        (["8.", "11.", "17.", "21."].any (fun p => pyStartsWith version p)))
  | v => .error (attrError v "startswith")

/-- `ConfigValidator._validate_python_config`. -/
def validatePythonConfig (cfg : Yaml) (st : VState) : PassResult :=
  match pyGetD cfg "python" (.map []) with
  | .error e => (st, some e)
  | .ok pc =>
      match pyGetD pc "version" .null with
      | .error e => (st, some e)
      | .ok version =>
          if version.truthy then
            (if !isValidPythonVersion version then
              st.addWarning ("Python version '" ++ pyStrOf version ++ "' may not be supported")
            else st, none)
          else (st, none)

/-- Python `js_config.get('runtime') not in ['node', 'bun', None]` (membership
via equality, never raises). -/
def jsRuntimeOk : Yaml → Bool
  | .str "node" => true
  | .str "bun" => true
  | .null => true
  | _ => false

/-- `ConfigValidator._validate_javascript_config`. -/
def validateJavascriptConfig (cfg : Yaml) (st : VState) : PassResult :=
  match pyGetD cfg "javascript" (.map []) with
  | .error e => (st, some e)
  | .ok jc =>
      match pyGetD jc "runtime" .null with
      | .error e => (st, some e)
      | .ok rt =>
          (if !jsRuntimeOk rt then
            st.addWarning "JavaScript runtime should be 'node' or 'bun'"
          else st, none)

/-- `ConfigValidator._validate_java_config`. -/
def validateJavaConfig (cfg : Yaml) (st : VState) : PassResult :=
  match pyGetD cfg "java" (.map []) with
  | .error e => (st, some e)
  | .ok jc =>
      match pyGetD jc "version" .null with
      | .error e => (st, some e)
      | .ok version =>
          if version.truthy then
            match isValidJavaVersion version with
            | .error e => (st, some e)
            | .ok valid =>
                (if !valid then
                  st.addWarning ("Java version '" ++ pyStrOf version ++ "' may not be LTS")
                else st, none)
          else (st, none)

/-- `ConfigValidator._validate_dotnet_config`. -/
def validateDotnetConfig (cfg : Yaml) (st : VState) : PassResult :=
  match pyGetD cfg "dotnet" (.map []) with
  | .error e => (st, some e)
  | .ok dc =>
      match pyGetD dc "version" .null with
      | .error e => (st, some e)
      | .ok version =>
          if version.truthy then
            (if !isValidDotnetVersion version then
              st.addWarning (".NET version '" ++ pyStrOf version ++ "' may not be supported")
            else st, none)
          else (st, none)

def supportedLanguages : List String := ["python", "javascript", "java", "dotnet"]

/-- The body of `_validate_language_config` once `language` and `framework`
have been read and lowercased: the unsupported-language warning, then the
dispatch on the language value. -/
def languageBody (cfg : Yaml) (language : String) : VState → PassResult :=
  fun st =>
    andThen (warnStep (language != "" && !supportedLanguages.contains language)
      ("Language '" ++ language ++
        "' is not in the list of well-supported languages: ['python', 'javascript', 'java', 'dotnet']")
      st) fun st =>
    if language == "python" then validatePythonConfig cfg st
    else if language == "javascript" then validateJavascriptConfig cfg st
    else if language == "java" then validateJavaConfig cfg st
    else if language == "dotnet" then validateDotnetConfig cfg st
    else (st, none)

/-- `ConfigValidator._validate_language_config`: reads and lowercases
`language` and `framework` (either raises on a non-string), warns on languages
outside the supported list, then dispatches to the language-specific check. -/
def validateLanguageConfig (cfg : Yaml) (st : VState) : PassResult :=
  match pyGetD cfg "language" (.str "") with
  | .error e => (st, some e)
  | .ok langV =>
  match pyLower langV with
  | .error e => (st, some e)
  | .ok language =>
  match pyGetD cfg "framework" (.str "") with
  | .error e => (st, some e)
  | .ok fwV =>
  match pyLower fwV with
  | .error e => (st, some e)
  | .ok _framework => languageBody cfg language st

/-- The four language/test-runner checks at the end of
`_validate_tool_config`, in source order. -/
def toolBody (language testRunner : String) : VState → PassResult :=
  fun st =>
    andThen (warnStep (language == "python" && !(["pytest", "unittest", ""].contains testRunner))
      "For Python, consider using 'pytest' or 'unittest' as test runner" st) fun st =>
    andThen (warnStep (language == "javascript" && !(["jest", "mocha", "jasmine", ""].contains testRunner))
      "For JavaScript, consider using 'jest', 'mocha', or 'jasmine' as test runner" st) fun st =>
    andThen (warnStep (language == "java" && !(["junit", "testng", ""].contains testRunner))
      "For Java, consider using 'junit' or 'testng' as test runner" st) fun st =>
    warnStep (language == "dotnet" && !(["xunit", "nunit", "mstest", ""].contains testRunner))
      "For .NET, consider using 'xunit', 'nunit', or 'mstest' as test runner" st

/-- The part of `_validate_tool_config` after the `saz` warning: read and
lowercase `language` and `tools.test_runner` (raises on non-strings), then
run the language/test-runner checks. -/
def toolRest (cfg tools : Yaml) : VState → PassResult :=
  fun st =>
    match pyGetD cfg "language" (.str "") with
    | .error e => (st, some e)
    | .ok langV =>
    match pyLower langV with
    | .error e => (st, some e)
    | .ok language =>
    match pyGetD tools "test_runner" (.str "") with
    | .error e => (st, some e)
    | .ok trV =>
    match pyLower trV with
    | .error e => (st, some e)
    | .ok testRunner => toolBody language testRunner st

/-- `ConfigValidator._validate_tool_config`. -/
def validateToolConfig (cfg : Yaml) (st : VState) : PassResult :=
  match pyGetD cfg "tools" (.map []) with
  | .error e => (st, some e)
  | .ok tools =>
  match pyGetD tools "cli" (.str "") with
  | .error e => (st, some e)
  | .ok cliV =>
  match pyLower cliV with
  | .error e => (st, some e)
  | .ok cliTool =>
  andThen (warnStep (cliTool != "saz")
    "Consider using 'saz' as the primary CLI tool for consistency" st) (toolRest cfg tools)

/-- `ConfigValidator._validate_consistency`: `sum(1 for v in
platforms.values() if v is True)`; `platforms.values()` raises on a non-dict
value. -/
def validateConsistency (cfg : Yaml) (st : VState) : PassResult :=
  match pyGetD cfg "platforms" (.map []) with
  | .error e => (st, some e)
  | .ok (.map pes) =>
      let enabledCount := (pes.map Prod.snd).countP isTrueBool
      (if 1 < enabledCount then
        st.addWarning ("Multiple platforms enabled (" ++ toString enabledCount ++
          "). Ensure SAZ is configured correctly for all platforms.")
      else st, none)
  | .ok platforms => (st, some (attrError platforms "values"))

/-- The body of `ConfigValidator.validate`'s `try` block after `_load_config`:
the six passes in their fixed order, a raised exception skipping the rest. -/
def runPasses (cfg : Yaml) (st : VState) : PassResult :=
  andThen (validateRequiredFields cfg st) fun st =>
  andThen (validateDataTypes cfg st) fun st =>
  andThen (validatePlatformConfig cfg st) fun st =>
  andThen (validateLanguageConfig cfg st) fun st =>
  andThen (validateToolConfig cfg st) fun st =>
  validateConsistency cfg st

/-- `ConfigValidator.validate` on a successfully parsed document: `_load_config`
replaces a falsy parse result with `{}` (`yaml.safe_load(f) or {}`); an
exception raised by any pass is recorded as a single
`Failed to validate config` error; the boolean result is
`len(self.errors) == 0`. -/
def validate (parsed : Yaml) : Bool × VState :=
  let cfg := if parsed.truthy then parsed else Yaml.map []
  match runPasses cfg ⟨[], []⟩ with
  | (st, none) => (st.errors.isEmpty, st)
  | (st, some e) => (false, st.addError ("Failed to validate config: " ++ e))

/-- A whole run of `ConfigValidator.validate`: `.error msg` models
`_load_config` raising (file not found / invalid YAML), `.ok parsed` a
successful parse (with `parsed = .null` for an empty document). -/
def validateRun (load : Except String Yaml) : Bool × VState :=
  match load with
  | .error e => (false, VState.addError ⟨[], []⟩ ("Failed to validate config: " ++ e))
  | .ok parsed => validate parsed

end ConfigValidation

namespace HardcodedValues

open PyStr

/-- One rule of the checker: a `pattern|description|severity` triple (the
source keeps them as tuples of stripped strings). -/
structure Rule where
  pattern : String
  description : String
  severity : String
deriving DecidableEq, Repr

/-- One entry of `self.issues`. -/
structure Issue where
  file : String
  line : String
  issue : String
  severity : String
  context : Option String
deriving DecidableEq, Repr

/-- The fallback rules used when the patterns file is absent or unreadable. -/
def defaultPatterns : List Rule :=
  [⟨"\\b(?:Proto|proto)\\b", "project name", "warning"⟩,
   ⟨"\\b(?:nazh|naz-hage)\\b", "organization/user name", "warning"⟩]

/-- One line of the patterns file, as `_load_patterns` treats it: strip it,
skip it when blank or a `#` comment, split the stripped line on `|`, keep it
only when that yields exactly 3 parts. -/
def parsePatternLine (rawLine : String) : Option Rule :=
  let line := pyStrip rawLine
  if line.isEmpty then none
  else if pyStartsWith line "#" then none
  else
    match pySplit line '|' with
    | [pattern, description, severity] =>
        some ⟨pyStrip pattern, pyStrip description, pyStrip severity⟩
    | _ => none

/-- `HardcodedValuesChecker._load_patterns`: `none` models an unreadable or
absent patterns file (`FileNotFoundError` or any other exception, both caught
with the same fallback); `some lines` the file's lines.  Never raises. -/
def loadPatterns : Option (List String) → List Rule
  | none => defaultPatterns
  | some lines => lines.filterMap parsePatternLine

/-- `re.finditer(pattern, line, re.IGNORECASE)`, the one piece of external
library behaviour the checker uses: for a pattern and a line it yields the
non-overlapping matches as `(match.start(), match.group())` pairs.  The
scanner's theorems hold for every matcher. -/
abbrev Matcher := String → String → List (Nat × String)

def exampleIndicators : List String :=
  ["example", "e.g.", "for instance", "such as", "like", "sample", "demo",
   "test", "placeholder", "your-", "my-", "company-", "org-"]

/-- `line.find('#')`: the index of the first `#` (callers guard on
`'#' in line`, so the not-found value is never used). -/
def hashIndex (line : String) : Nat :=
  (line.toList.takeWhile (fun c => c != '#')).length

/-- `HardcodedValuesChecker._is_in_example_context`.  The second argument
mirrors the source's `match_pos` parameter, which its body never reads. -/
def isInExampleContext (line : String) (matchPos : Nat) : Bool :=
  let lineLower := pyLowerString line
  if exampleIndicators.any (fun ind => pyContains lineLower ind) then true
  else if line.toList.contains '#' &&
      exampleIndicators.any (fun ind =>
        pyContains (String.mk (lineLower.toList.drop (hashIndex line))) ind) then true
  else false

def placeholderTokens : List String :=
  ["[PROJECT_NAME]", "[ORG_NAME]", "[TOOL_COMMAND]"]

/-- `HardcodedValuesChecker._check_line`: skip any line holding a placeholder
token; otherwise, for every rule, every regex match not in example context
becomes one issue. -/
def checkLine (finditer : Matcher) (rules : List Rule) (filePath : String)
    (lineNum : Nat) (line : String) : List Issue :=
  if placeholderTokens.any (fun p => pyContains line p) then []
  else
    rules.flatMap fun r =>
      (finditer r.pattern line).filterMap fun m =>
        if isInExampleContext line m.1 then none
        else
          some ⟨filePath, toString lineNum,
            "Potential hardcoded " ++ r.description ++ ": \"" ++ m.2 ++ "\"",
            r.severity, some (pyStrip line)⟩

/-- A file the walk can reach: its path relative to the template directory
and either its lines (the source splits the decoded content on newlines) or
the message of the `UnicodeDecodeError`/`IOError` reading it raised. -/
structure SrcFile where
  path : String
  content : Except String (List String)

/-- `HardcodedValuesChecker._check_file`. -/
def checkFile (finditer : Matcher) (rules : List Rule) (f : SrcFile) : List Issue :=
  match f.content with
  | .error e => [⟨f.path, "1", "Could not read file: " ++ e, "error", none⟩]
  | .ok lines =>
      (lines.enum).flatMap fun nl => checkLine finditer rules f.path (nl.1 + 1) nl.2

/-- The file-selection pattern `"**/*.{md,yaml,yml}"` as `pathlib.Path.glob`
reads it: pathlib translates each component with `fnmatch`, which has no
brace expansion, so `*.{md,yaml,yml}` matches exactly the names that end in
the literal eleven characters `.{md,yaml,yml}` (and `**/` allows any leading
directories). -/
def globMatches (path : String) : Bool :=
  pyEndsWith path ".\x7bmd,yaml,yml\x7d"

/-- `HardcodedValuesChecker.check_all_files`: fail fast when the template
directory is missing, otherwise scan the glob's matches and succeed iff no
issue was recorded. -/
def checkAllFiles (finditer : Matcher) (rules : List Rule) (dirExists : Bool)
    (tree : List SrcFile) : Bool × List Issue :=
  if !dirExists then (false, [])
  else
    let files := tree.filter (fun f => globMatches f.path)
    let issues := files.flatMap (checkFile finditer rules)
    (issues.isEmpty, issues)

/-- The exit code `main` chooses: 0 when `check_all_files` returned `True`;
otherwise 1 exactly when at least one recorded issue has `error` severity. -/
def mainExitCode (ok : Bool) (issues : List Issue) : Nat :=
  if ok then 0
  else if 0 < issues.countP (fun i => i.severity == "error") then 1
  else 0

end HardcodedValues

namespace ConfigValidation

/-- The path-resolution relation the dotted lookup is specified against:
`Resolves v ks w` holds when every intermediate along `ks` is a mapping
containing the next key and the walk ends at the stored value `w`. -/
inductive Resolves : Yaml → List String → Yaml → Prop
  | nil (v : Yaml) : Resolves v [] v
  | cons {es : List (String × Yaml)} {k : String} {w : Yaml} {ks : List String} {u : Yaml} :
      es.lookup k = some w → Resolves w ks u → Resolves (.map es) (k :: ks) u

/-- A pass only appends to the error and warning lists, and what it appends
(and whether it raises) is independent of the state it starts from. -/
def StAppends (p : VState → PassResult) : Prop :=
  ∀ st : VState,
    p st = (⟨st.errors ++ (p ⟨[], []⟩).1.errors,
            st.warnings ++ (p ⟨[], []⟩).1.warnings⟩, (p ⟨[], []⟩).2)

/-- A pass whose effect is a fixed error/warning delta and a fixed exception
outcome, independent of the starting state. -/
def PassDelta (p : VState → PassResult) (E W : List String) (x : Option String) : Prop :=
  ∀ st, p st = (⟨st.errors ++ E, st.warnings ++ W⟩, x)

/-- A pass having some state-independent delta. -/
def HasDelta (p : VState → PassResult) : Prop :=
  ∃ E W x, PassDelta p E W x

end ConfigValidation

section Theorems

open PyStr ConfigValidation HardcodedValues

theorem isEmpty_append_singleton (l : List String) (m : String) :
    (l ++ [m]).isEmpty = false := by
  cases l <;> rfl

/-- Claim C4: the config validator's boolean result is `true` exactly when the
errors list is empty after validation — on the normal path it is literally
`len(self.errors) == 0`, and on the exception path an error has just been
appended, so the list is non-empty and the result `false`; warnings never
enter the decision. -/
theorem claim_c4_success_iff_no_errors (load : Except String Yaml) :
    (validateRun load).1 = ((validateRun load).2.errors.isEmpty : Bool) := by
  cases load with
  | error e => rfl
  | ok parsed =>
    show (validate parsed).1 = (validate parsed).2.errors.isEmpty
    rcases h : runPasses (if parsed.truthy then parsed else Yaml.map []) ⟨[], []⟩ with
      ⟨st, _ | e⟩ <;>
      simp [validate, h, VState.addError, isEmpty_append_singleton]

/-- Claim C9: a config file that parses to an empty YAML document
(`yaml.safe_load` returns `None`) is replaced by `{}` rather than aborting the
load, and validation then runs all the passes: each of the four required
fields yields its own missing-field error, and the later passes still append
their warnings. -/
theorem claim_c9_empty_document :
    validateRun (.ok .null) =
      (false,
       ⟨["Required field missing: project.name",
         "Required field missing: project.organization",
         "Required field missing: platforms",
         "Required field missing: language"],
        ["No platforms are enabled. Consider enabling at least one platform.",
         "Consider using 'saz' as the primary CLI tool for consistency"]⟩) := by
  decide

/-- Claim C1 (refuted by the code): `pathlib.Path.glob` performs no brace
expansion, so the pattern `**/*.{md,yaml,yml}` selects only files whose names
literally end in `.{md,yaml,yml}`; in the claim's scenario the `.md` file is
never enumerated, so the run records no finding at all — for every possible
regex matcher — returns success, and exits with code 0, not 1. -/
theorem claim_c1_glob_never_scans_md (finditer : Matcher) :
    globMatches "doc.md" = false ∧
    globMatches "weird.\x7bmd,yaml,yml\x7d" = true ∧
    checkAllFiles finditer (loadPatterns (some ["MyOrg|organization/user name|error"]))
        true [⟨"doc.md", .ok ["Contact MyOrg for details"]⟩] = (true, []) ∧
    mainExitCode
      (checkAllFiles finditer (loadPatterns (some ["MyOrg|organization/user name|error"]))
        true [⟨"doc.md", .ok ["Contact MyOrg for details"]⟩]).1
      (checkAllFiles finditer (loadPatterns (some ["MyOrg|organization/user name|error"]))
        true [⟨"doc.md", .ok ["Contact MyOrg for details"]⟩]).2 = 0 :=
  ⟨rfl, rfl, rfl, rfl⟩

/-- Claim C7: a line containing any of the three placeholder tokens is skipped
before any rule is applied, so no finding is ever produced for it, whatever
the rules and whatever the regex matcher reports. -/
theorem claim_c7_placeholder_lines_skipped (finditer : Matcher) (rules : List Rule)
    (filePath : String) (lineNum : Nat) (line : String)
    (h : placeholderTokens.any (fun p => pyContains line p) = true) :
    checkLine finditer rules filePath lineNum line = [] := by
  simp [checkLine, h]

/-- Witness for claim C7 at a concrete matcher, rule list and line. -/
theorem claim_c7_witness :
    checkLine (fun _ line => [(0, line)]) defaultPatterns "f.md" 1
      "use [PROJECT_NAME] here" = [] :=
  claim_c7_placeholder_lines_skipped _ _ _ _ _ (by decide)

/-- Claim C8: the dotted-path lookup returns the stored value whenever every
intermediate along the path is a mapping containing the next key
(`Resolves`), and Python `None` in every other case; being a total function
it never raises. -/
theorem claim_c8_nested_lookup (v : Yaml) (path : String) :
    (∀ w, Resolves v (pySplit path '.') w → getNestedValue v path = w) ∧
    ((∀ w, ¬ Resolves v (pySplit path '.') w) → getNestedValue v path = .null) := by
  unfold getNestedValue
  generalize pySplit path '.' = ks
  constructor
  · intro w h
    induction h with
    | nil v => simp [getNestedKeys]
    | cons hl _ ih => simp only [getNestedKeys, hl]; exact ih
  · intro h
    induction ks generalizing v with
    | nil => exact absurd (Resolves.nil v) (h v)
    | cons k ks ih =>
      cases v with
      | map es =>
        cases hl : es.lookup k with
        | none => simp [getNestedKeys, hl]
        | some w =>
          simp only [getNestedKeys, hl]
          exact ih w (fun u hu => h u (Resolves.cons hl hu))
      | null => simp [getNestedKeys]
      | bool b => simp [getNestedKeys]
      | int n => simp [getNestedKeys]
      | str s => simp [getNestedKeys]
      | list xs => simp [getNestedKeys]

/-- Witness for claim C8 at a concrete document and dotted path. -/
theorem claim_c8_witness :
    getNestedValue (.map [("project", .map [("name", .str "X")])]) "project.name" =
      .str "X" := by
  apply (claim_c8_nested_lookup (.map [("project", .map [("name", .str "X")])])
    "project.name").1
  show Resolves _ (pySplit "project.name" '.') _
  have hs : pySplit "project.name" '.' = ["project", "name"] := by decide
  rw [hs]
  exact .cons rfl (.cons rfl (.nil _))

/-- Claim C6: a match is suppressed exactly when the lowercased line contains
one of the fixed example markers anywhere, or the line contains `#` and the
suffix from the first `#` onward contains one; and the decision never depends
on the match's position within the line (the source's `match_pos` parameter
is dead). -/
theorem claim_c6_example_context (line : String) (p q : Nat) :
    (isInExampleContext line p = true ↔
      ((∃ ind ∈ exampleIndicators, pyContains (pyLowerString line) ind = true) ∨
        (line.toList.contains '#' = true ∧
          ∃ ind ∈ exampleIndicators,
            pyContains (String.mk ((pyLowerString line).toList.drop (hashIndex line)))
              ind = true))) ∧
    isInExampleContext line p = isInExampleContext line q := by
  refine ⟨?_, rfl⟩
  cases hA : exampleIndicators.any (fun ind => pyContains (pyLowerString line) ind) <;>
    cases hH : line.toList.contains '#' <;>
    cases hB : exampleIndicators.any (fun ind =>
        pyContains (String.mk ((pyLowerString line).toList.drop (hashIndex line))) ind) <;>
    simp_all [isInExampleContext, List.any_eq_true]

/-- Witness for claim C6 at a concrete line and two match positions. -/
theorem claim_c6_witness :
    isInExampleContext "nazh runs a sample org" 2 =
      isInExampleContext "nazh runs a sample org" 9 :=
  (claim_c6_example_context "nazh runs a sample org" 2 9).2

theorem parsePatternLine_malformed (l : String)
    (h1 : (pyStrip l).isEmpty = false)
    (h2 : pyStartsWith (pyStrip l) "#" = false)
    (h3 : (pySplit (pyStrip l) '|').length ≠ 3) :
    parsePatternLine l = none := by
  simp only [parsePatternLine, h1, h2, Bool.false_eq_true, if_false]
  split
  · rename_i heq
    rw [heq] at h3
    simp at h3
  · rfl

/-- Claim C5: the pattern loader is total; an absent or unreadable file yields
exactly the two built-in rules; an empty file yields no rules; any non-blank,
non-comment line that does not split on `|` into exactly 3 parts is silently
dropped; and loading is a homomorphism on line lists, so the returned rules
preserve file order. -/
theorem claim_c5_pattern_loader :
    (loadPatterns none =
        [⟨"\\b(?:Proto|proto)\\b", "project name", "warning"⟩,
         ⟨"\\b(?:nazh|naz-hage)\\b", "organization/user name", "warning"⟩] ∧
      (loadPatterns none).length = 2) ∧
    loadPatterns (some []) = [] ∧
    (∀ linesA linesB l, (pyStrip l).isEmpty = false →
      pyStartsWith (pyStrip l) "#" = false →
      (pySplit (pyStrip l) '|').length ≠ 3 →
      loadPatterns (some (linesA ++ l :: linesB)) = loadPatterns (some (linesA ++ linesB))) ∧
    (∀ l1 l2, loadPatterns (some (l1 ++ l2)) = loadPatterns (some l1) ++ loadPatterns (some l2)) := by
  refine ⟨⟨rfl, rfl⟩, rfl, ?_, ?_⟩
  · intro linesA linesB l h1 h2 h3
    have hp := parsePatternLine_malformed l h1 h2 h3
    simp [loadPatterns, List.filterMap_append, List.filterMap_cons, hp]
  · intro l1 l2
    simp [loadPatterns, List.filterMap_append]

/-- Witness for claim C5: a malformed line (2 parts) is dropped. -/
theorem claim_c5_witness :
    loadPatterns (some (["MyOrg|organization/user name|error"] ++ "a|b" :: [])) =
      loadPatterns (some (["MyOrg|organization/user name|error"] ++ [])) :=
  claim_c5_pattern_loader.2.2.1 ["MyOrg|organization/user name|error"] [] "a|b"
    (by decide) (by decide) (by decide)

theorem platformPass_warnings (es : List (String × Yaml)) (st : VState) :
    validatePlatformConfig (.map [("platforms", .map es)]) st =
      (⟨st.errors,
        st.warnings ++
          ((if (es.filterMap (fun kv => if isTrueBool kv.2 then some kv.1 else none)).isEmpty
              then ["No platforms are enabled. Consider enabling at least one platform."]
              else []) ++
            (if (pyLookup es "azure_devops").truthy
              then ["Azure DevOps is enabled but no specific configuration provided"]
              else []) ++
            (if (pyLookup es "github").truthy
              then ["GitHub is enabled but no specific configuration provided"]
              else []) ++
            (if (pyLookup es "jira").truthy
              then ["Jira is enabled but no specific configuration provided"]
              else []))⟩, none) := by
  cases hc0 : (es.filterMap (fun kv => if isTrueBool kv.2 then some kv.1 else none)).isEmpty <;>
    cases ht1 : (pyLookup es "azure_devops").truthy <;>
    cases ht2 : (pyLookup es "github").truthy <;>
    cases ht3 : (pyLookup es "jira").truthy <;>
    simp [validatePlatformConfig, platformBody, warnStep, validateAzureDevopsConfig,
      validateGithubConfig, validateJiraConfig, pyGetD, List.lookup, andThen,
      VState.addWarning, (show Yaml.truthy (Yaml.map []) = false from rfl),
      hc0, ht1, ht2, ht3]

theorem consistencyPass_eq (es : List (String × Yaml)) (st : VState) :
    validateConsistency (.map [("platforms", .map es)]) st =
      (if 1 < (es.map Prod.snd).countP isTrueBool then
        st.addWarning ("Multiple platforms enabled (" ++
          toString ((es.map Prod.snd).countP isTrueBool) ++
          "). Ensure SAZ is configured correctly for all platforms.")
      else st, none) := by
  simp [validateConsistency, pyGetD, List.lookup]

theorem enabled_isEmpty_iff (es : List (String × Yaml)) :
    (es.filterMap (fun kv => if isTrueBool kv.2 then some kv.1 else none)).isEmpty = true ↔
      ∀ kv ∈ es, isTrueBool kv.2 = false := by
  rw [List.isEmpty_iff, List.filterMap_eq_nil_iff]
  constructor
  · intro h kv hm
    have := h kv hm
    cases hb : isTrueBool kv.2
    · rfl
    · rw [hb] at this; simp at this
  · intro h kv hm
    rw [h kv hm]
    rfl

/-- Claim C10: in both the platform pass and the consistency pass a platform
counts as enabled only when its value is exactly the boolean `True` (Python
`is True`); truthy non-boolean values count neither toward suppressing the
no-platforms warning nor toward the multiple-platforms count, and both
computations range over every key present under `platforms`. -/
theorem claim_c10_exact_boolean_true (es : List (String × Yaml)) :
    (("No platforms are enabled. Consider enabling at least one platform.") ∈
        (validatePlatformConfig (.map [("platforms", .map es)]) ⟨[], []⟩).1.warnings ↔
      ∀ kv ∈ es, isTrueBool kv.2 = false) ∧
    ((validateConsistency (.map [("platforms", .map es)]) ⟨[], []⟩).1.warnings =
      if 1 < (es.filter (fun kv => isTrueBool kv.2)).length then
        ["Multiple platforms enabled (" ++
          toString (es.filter (fun kv => isTrueBool kv.2)).length ++
          "). Ensure SAZ is configured correctly for all platforms."]
      else []) ∧
    (∀ k v, isTrueBool v = false →
      (validateConsistency (.map [("platforms", .map ((k, v) :: es))]) ⟨[], []⟩).1.warnings =
        (validateConsistency (.map [("platforms", .map es)]) ⟨[], []⟩).1.warnings) := by
  have hcount : (es.map Prod.snd).countP isTrueBool =
      (es.filter (fun kv => isTrueBool kv.2)).length := by
    rw [List.countP_map, List.countP_eq_length_filter]
    rfl
  refine ⟨?_, ?_, ?_⟩
  · rw [platformPass_warnings]
    rw [← enabled_isEmpty_iff]
    cases hc0 : (es.filterMap (fun kv => if isTrueBool kv.2 then some kv.1 else none)).isEmpty <;>
      cases ht1 : (pyLookup es "azure_devops").truthy <;>
      cases ht2 : (pyLookup es "github").truthy <;>
      cases ht3 : (pyLookup es "jira").truthy <;>
      simp [hc0, ht1, ht2, ht3]
  · rw [consistencyPass_eq, hcount]
    split <;> simp [VState.addWarning]
  · intro k v hv
    rw [consistencyPass_eq, consistencyPass_eq]
    simp [List.countP_cons, hv]

/-- Witness for claim C10: a truthy non-boolean entry does not change the
consistency pass's warnings. -/
theorem claim_c10_witness :
    (validateConsistency
        (.map [("platforms", .map [("gitlab", .int 1), ("github", .bool true)])])
        ⟨[], []⟩).1.warnings =
      (validateConsistency (.map [("platforms", .map [("github", .bool true)])])
        ⟨[], []⟩).1.warnings :=
  (claim_c10_exact_boolean_true [("github", .bool true)]).2.2 "gitlab" (.int 1) (by decide)

theorem hasDelta_stAppends {p : VState → PassResult} (h : HasDelta p) : StAppends p := by
  obtain ⟨E, W, x, hd⟩ := h
  intro st
  rw [hd st, hd ⟨[], []⟩]
  simp

theorem hasDelta_of_stAppends {p : VState → PassResult} (h : StAppends p) : HasDelta p :=
  ⟨(p ⟨[], []⟩).1.errors, (p ⟨[], []⟩).1.warnings, (p ⟨[], []⟩).2, fun st => h st⟩

theorem hasDelta_pure (x : Option String) : HasDelta (fun st => (st, x)) :=
  ⟨[], [], x, fun st => by simp⟩

theorem hasDelta_warnStep (c : Bool) (w : String) : HasDelta (warnStep c w) := by
  cases c
  · exact ⟨[], [], none, fun st => by simp [warnStep]⟩
  · exact ⟨[], [w], none, fun st => by simp [warnStep, VState.addWarning]⟩

theorem hasDelta_ite (c : Bool) {p q : VState → PassResult}
    (hp : HasDelta p) (hq : HasDelta q) :
    HasDelta (fun st => if c then p st else q st) := by
  cases c
  · simpa using hq
  · simpa using hp

theorem hasDelta_andThen {p q : VState → PassResult}
    (hp : HasDelta p) (hq : HasDelta q) : HasDelta (fun st => andThen (p st) q) := by
  obtain ⟨E1, W1, x1, h1⟩ := hp
  obtain ⟨E2, W2, x2, h2⟩ := hq
  cases x1 with
  | none =>
    refine ⟨E1 ++ E2, W1 ++ W2, x2, fun st => ?_⟩
    show andThen (p st) q = _
    rw [h1 st]
    simp only [andThen]
    rw [h2 ⟨st.errors ++ E1, st.warnings ++ W1⟩]
    simp [List.append_assoc]
  | some e =>
    refine ⟨E1, W1, some e, fun st => ?_⟩
    simp [h1 st, andThen]

theorem stAppends_congr {p p' : VState → PassResult}
    (hp : StAppends p') (h : ∀ st, p st = p' st) : StAppends p := by
  intro st
  rw [h st, h ⟨[], []⟩]
  exact hp st

theorem az_stAppends (cfg : Yaml) : StAppends (validateAzureDevopsConfig cfg) := by
  intro st
  simp only [validateAzureDevopsConfig]
  cases hg : pyGetD cfg "azure_devops" (Yaml.map []) with
  | error e => simp
  | ok ac => cases hac : ac.truthy <;> simp [hac, VState.addWarning]

theorem gh_stAppends (cfg : Yaml) : StAppends (validateGithubConfig cfg) := by
  intro st
  simp only [validateGithubConfig]
  cases hg : pyGetD cfg "github" (Yaml.map []) with
  | error e => simp
  | ok gc => cases hgc : gc.truthy <;> simp [hgc, VState.addWarning]

theorem jira_stAppends (cfg : Yaml) : StAppends (validateJiraConfig cfg) := by
  intro st
  simp only [validateJiraConfig]
  cases hg : pyGetD cfg "jira" (Yaml.map []) with
  | error e => simp
  | ok jc => cases hjc : jc.truthy <;> simp [hjc, VState.addWarning]

theorem platformBody_stAppends (cfg : Yaml) (pes : List (String × Yaml)) :
    StAppends (platformBody cfg pes) := by
  apply hasDelta_stAppends
  unfold platformBody
  exact hasDelta_andThen (hasDelta_warnStep _ _)
    (hasDelta_andThen (hasDelta_ite _ (hasDelta_of_stAppends (az_stAppends cfg)) (hasDelta_pure none))
      (hasDelta_andThen (hasDelta_ite _ (hasDelta_of_stAppends (gh_stAppends cfg)) (hasDelta_pure none))
        (hasDelta_ite _ (hasDelta_of_stAppends (jira_stAppends cfg)) (hasDelta_pure none))))

theorem platform_stAppends (cfg : Yaml) : StAppends (validatePlatformConfig cfg) := by
  cases hg : pyGetD cfg "platforms" (Yaml.map []) with
  | error e => intro st; simp [validatePlatformConfig, hg]
  | ok v =>
    cases v
    case map pes =>
      exact stAppends_congr (platformBody_stAppends cfg pes)
        (fun s => by simp [validatePlatformConfig, hg])
    all_goals (intro st; simp [validatePlatformConfig, hg])

theorem foldl_errIf_append (f : String → Bool) (msg : String → String) (l : List String) :
    ∀ st : VState,
      l.foldl (fun st p => if f p then st.addError (msg p) else st) st =
        ⟨st.errors ++ l.filterMap (fun p => if f p then some (msg p) else none),
         st.warnings⟩ := by
  induction l with
  | nil => intro st; simp
  | cons p t ih =>
    intro st
    simp only [List.foldl_cons, List.filterMap_cons]
    rw [ih]
    cases hf : f p <;> simp [hf, VState.addError, List.append_assoc]

theorem requiredFields_stAppends (cfg : Yaml) : StAppends (validateRequiredFields cfg) := by
  intro st
  simp only [validateRequiredFields]
  rw [foldl_errIf_append, foldl_errIf_append]
  simp

theorem dataTypes_stAppends (cfg : Yaml) : StAppends (validateDataTypes cfg) := by
  intro st
  simp only [validateDataTypes]
  rw [foldl_errIf_append, foldl_errIf_append, foldl_errIf_append, foldl_errIf_append]
  simp [List.append_assoc]

theorem python_stAppends (cfg : Yaml) : StAppends (validatePythonConfig cfg) := by
  intro st
  simp only [validatePythonConfig]
  cases h1 : pyGetD cfg "python" (Yaml.map []) with
  | error e => simp [h1]
  | ok pc =>
    cases h2 : pyGetD pc "version" Yaml.null with
    | error e => simp [h1, h2]
    | ok version =>
      cases hv : version.truthy <;> cases hiv : isValidPythonVersion version <;>
        simp [h1, h2, hv, hiv, VState.addWarning]

theorem js_stAppends (cfg : Yaml) : StAppends (validateJavascriptConfig cfg) := by
  intro st
  simp only [validateJavascriptConfig]
  cases h1 : pyGetD cfg "javascript" (Yaml.map []) with
  | error e => simp [h1]
  | ok jc =>
    cases h2 : pyGetD jc "runtime" Yaml.null with
    | error e => simp [h1, h2]
    | ok rt => cases hr : jsRuntimeOk rt <;> simp [h1, h2, hr, VState.addWarning]

theorem java_stAppends (cfg : Yaml) : StAppends (validateJavaConfig cfg) := by
  intro st
  simp only [validateJavaConfig]
  cases h1 : pyGetD cfg "java" (Yaml.map []) with
  | error e => simp [h1]
  | ok jc =>
    cases h2 : pyGetD jc "version" Yaml.null with
    | error e => simp [h1, h2]
    | ok version =>
      cases hv : version.truthy
      · simp [h1, h2, hv]
      · cases hjv : isValidJavaVersion version with
        | error e => simp [h1, h2, hv, hjv]
        | ok valid => cases valid <;> simp [h1, h2, hv, hjv, VState.addWarning]

theorem dotnet_stAppends (cfg : Yaml) : StAppends (validateDotnetConfig cfg) := by
  intro st
  simp only [validateDotnetConfig]
  cases h1 : pyGetD cfg "dotnet" (Yaml.map []) with
  | error e => simp [h1]
  | ok dc =>
    cases h2 : pyGetD dc "version" Yaml.null with
    | error e => simp [h1, h2]
    | ok version =>
      cases hv : version.truthy <;> cases hiv : isValidDotnetVersion version <;>
        simp [h1, h2, hv, hiv, VState.addWarning]

theorem languageBody_stAppends (cfg : Yaml) (language : String) :
    StAppends (languageBody cfg language) := by
  apply hasDelta_stAppends
  unfold languageBody
  exact hasDelta_andThen (hasDelta_warnStep _ _)
    (hasDelta_ite _ (hasDelta_of_stAppends (python_stAppends cfg))
      (hasDelta_ite _ (hasDelta_of_stAppends (js_stAppends cfg))
        (hasDelta_ite _ (hasDelta_of_stAppends (java_stAppends cfg))
          (hasDelta_ite _ (hasDelta_of_stAppends (dotnet_stAppends cfg))
            (hasDelta_pure none)))))

theorem language_stAppends (cfg : Yaml) : StAppends (validateLanguageConfig cfg) := by
  cases h1 : pyGetD cfg "language" (Yaml.str "") with
  | error e => intro st; simp [validateLanguageConfig, h1]
  | ok langV =>
    cases h2 : pyLower langV with
    | error e => intro st; simp [validateLanguageConfig, h1, h2]
    | ok language =>
      cases h3 : pyGetD cfg "framework" (Yaml.str "") with
      | error e => intro st; simp [validateLanguageConfig, h1, h2, h3]
      | ok fwV =>
        cases h4 : pyLower fwV with
        | error e => intro st; simp [validateLanguageConfig, h1, h2, h3, h4]
        | ok fw =>
          exact stAppends_congr (languageBody_stAppends cfg language)
            (fun s => by simp [validateLanguageConfig, h1, h2, h3, h4])

theorem toolBody_stAppends (language testRunner : String) :
    StAppends (toolBody language testRunner) := by
  apply hasDelta_stAppends
  unfold toolBody
  exact hasDelta_andThen (hasDelta_warnStep _ _)
    (hasDelta_andThen (hasDelta_warnStep _ _)
      (hasDelta_andThen (hasDelta_warnStep _ _) (hasDelta_warnStep _ _)))

theorem toolRest_stAppends (cfg tools : Yaml) : StAppends (toolRest cfg tools) := by
  cases h1 : pyGetD cfg "language" (Yaml.str "") with
  | error e => intro st; simp [toolRest, h1]
  | ok langV =>
    cases h2 : pyLower langV with
    | error e => intro st; simp [toolRest, h1, h2]
    | ok language =>
      cases h3 : pyGetD tools "test_runner" (Yaml.str "") with
      | error e => intro st; simp [toolRest, h1, h2, h3]
      | ok trV =>
        cases h4 : pyLower trV with
        | error e => intro st; simp [toolRest, h1, h2, h3, h4]
        | ok testRunner =>
          exact stAppends_congr (toolBody_stAppends language testRunner)
            (fun s => by simp [toolRest, h1, h2, h3, h4])

theorem tool_stAppends (cfg : Yaml) : StAppends (validateToolConfig cfg) := by
  cases h1 : pyGetD cfg "tools" (Yaml.map []) with
  | error e => intro st; simp [validateToolConfig, h1]
  | ok tools =>
    cases h2 : pyGetD tools "cli" (Yaml.str "") with
    | error e => intro st; simp [validateToolConfig, h1, h2]
    | ok cliV =>
      cases h3 : pyLower cliV with
      | error e => intro st; simp [validateToolConfig, h1, h2, h3]
      | ok cliTool =>
        exact stAppends_congr
          (hasDelta_stAppends (hasDelta_andThen
            (hasDelta_warnStep (cliTool != "saz")
              "Consider using 'saz' as the primary CLI tool for consistency")
            (hasDelta_of_stAppends (toolRest_stAppends cfg tools))))
          (fun s => by simp [validateToolConfig, h1, h2, h3])

theorem consistency_stAppends (cfg : Yaml) : StAppends (validateConsistency cfg) := by
  intro st
  simp only [validateConsistency]
  cases hg : pyGetD cfg "platforms" (Yaml.map []) with
  | error e => simp [hg]
  | ok v =>
    cases v
    case map pes =>
      simp only [hg]
      split <;> simp_all [VState.addWarning]
    all_goals simp [hg]

theorem runPasses_stAppends (cfg : Yaml) : StAppends (runPasses cfg) := by
  unfold runPasses
  apply hasDelta_stAppends
  exact hasDelta_andThen (hasDelta_of_stAppends (requiredFields_stAppends cfg))
    (hasDelta_andThen (hasDelta_of_stAppends (dataTypes_stAppends cfg))
      (hasDelta_andThen (hasDelta_of_stAppends (platform_stAppends cfg))
        (hasDelta_andThen (hasDelta_of_stAppends (language_stAppends cfg))
          (hasDelta_andThen (hasDelta_of_stAppends (tool_stAppends cfg))
            (hasDelta_of_stAppends (consistency_stAppends cfg))))))

/-- Claim C2 (amended): the six passes run in their fixed order, and what a
pass appends to the error and warning lists — and whether it raises — depends
only on the config document, never on findings accumulated by earlier passes,
so findings never block a later pass.  (The original claim fails because a
pass can raise — e.g. `platforms` not a mapping — which aborts the remaining
passes; see the counterexample.) -/
theorem claim_c2_passes_append_only (cfg : Yaml) :
    StAppends (validateRequiredFields cfg) ∧ StAppends (validateDataTypes cfg) ∧
    StAppends (validatePlatformConfig cfg) ∧ StAppends (validateLanguageConfig cfg) ∧
    StAppends (validateToolConfig cfg) ∧ StAppends (validateConsistency cfg) ∧
    StAppends (runPasses cfg) :=
  ⟨requiredFields_stAppends cfg, dataTypes_stAppends cfg, platform_stAppends cfg,
   language_stAppends cfg, tool_stAppends cfg, consistency_stAppends cfg,
   runPasses_stAppends cfg⟩

/-- Claim C2's counterexample: with `platforms: "x"` the platform pass raises
(`'str' object has no attribute 'items'`), so the language pass — which on its
own would append the unsupported-language warning for `cobol` — never runs:
the full validation ends with a single exception error and no warnings. -/
theorem claim_c2_counterexample :
    (validateLanguageConfig
        (.map [("project", .map [("name", .str "X"), ("organization", .str "O")]),
               ("platforms", .str "x"), ("language", .str "cobol")]) ⟨[], []⟩).1.warnings =
      ["Language 'cobol' is not in the list of well-supported languages: ['python', 'javascript', 'java', 'dotnet']"] ∧
    validate (.map [("project", .map [("name", .str "X"), ("organization", .str "O")]),
               ("platforms", .str "x"), ("language", .str "cobol")]) =
      (false, ⟨["Failed to validate config: 'str' object has no attribute 'items'"], []⟩) := by
  constructor
  · decide
  · decide

/-- Claim C3 (amended): for python and dotnet, a truthy version value that
fails to parse — wrong type included — yields exactly the unsupported-version
warning, never an error, and never aborts; a falsy version value is skipped
by the truthiness gate and yields nothing at all.  For javascript, any
runtime value other than `node`, `bun` or absent yields exactly the runtime
warning, never an error.  For java the same warning-only behaviour holds for
every string version; a truthy non-string `java.version` instead raises and
aborts validation with an error (see the counterexample).  Each conjunct is a
complete characterisation of the sub-check's result. -/
theorem claim_c3_version_failures (v : Yaml) (s : String) (st : VState) :
    validatePythonConfig (.map [("python", .map [("version", v)])]) st =
      (if v.truthy && !isValidPythonVersion v then
        st.addWarning ("Python version '" ++ pyStrOf v ++ "' may not be supported")
      else st, none) ∧
    validateDotnetConfig (.map [("dotnet", .map [("version", v)])]) st =
      (if v.truthy && !isValidDotnetVersion v then
        st.addWarning (".NET version '" ++ pyStrOf v ++ "' may not be supported")
      else st, none) ∧
    validateJavascriptConfig (.map [("javascript", .map [("runtime", v)])]) st =
      (if !jsRuntimeOk v then
        st.addWarning "JavaScript runtime should be 'node' or 'bun'"
      else st, none) ∧
    validateJavaConfig (.map [("java", .map [("version", .str s)])]) st =
      (if (Yaml.str s).truthy &&
          !(ltsVersions.contains s ||
            (["8.", "11.", "17.", "21."].any (fun p => pyStartsWith s p))) then
        st.addWarning ("Java version '" ++ s ++ "' may not be LTS")
      else st, none) := by
  refine ⟨?_, ?_, ?_, ?_⟩
  · cases hv : v.truthy <;> cases hiv : isValidPythonVersion v <;>
      simp [validatePythonConfig, pyGetD, List.lookup, hv, hiv]
  · cases hv : v.truthy <;> cases hiv : isValidDotnetVersion v <;>
      simp [validateDotnetConfig, pyGetD, List.lookup, hv, hiv]
  · cases hr : jsRuntimeOk v <;>
      simp [validateJavascriptConfig, pyGetD, List.lookup, hr]
  · have h1 : pyGetD (Yaml.map [("java", Yaml.map [("version", Yaml.str s)])]) "java"
        (Yaml.map []) = Except.ok (Yaml.map [("version", Yaml.str s)]) := rfl
    have h2 : pyGetD (Yaml.map [("version", Yaml.str s)]) "version" Yaml.null =
        Except.ok (Yaml.str s) := rfl
    have hj : isValidJavaVersion (Yaml.str s) =
        Except.ok (ltsVersions.contains s ||
          (["8.", "11.", "17.", "21."].any (fun p => pyStartsWith s p))) := rfl
    simp only [validateJavaConfig, h1, h2, hj, pyStrOf]
    cases ht : (Yaml.str s).truthy <;>
      cases hB : (ltsVersions.contains s ||
        (["8.", "11.", "17.", "21."].any (fun p => pyStartsWith s p))) <;>
      simp [ht, hB]

/-- Claim C3's counterexample, refuting the claim as stated in both
directions: `java.version` given as the YAML integer `8` reaches
`version.startswith(...)`, raises `AttributeError`, and the run ends with an
error — not a warning — and no further validation; while the falsy
wrong-typed `python.version` value `false` is skipped by the truthiness gate
and produces no warning at all. -/
theorem claim_c3_counterexample :
    validate (.map [("project", .map [("name", .str "X"), ("organization", .str "O")]),
        ("platforms", .map [("github", .bool true)]), ("github", .map [("url", .str "u")]),
        ("language", .str "java"), ("java", .map [("version", .int 8)])]) =
      (false, ⟨["Failed to validate config: 'int' object has no attribute 'startswith'"], []⟩) ∧
    validatePythonConfig (.map [("python", .map [("version", .bool false)])]) ⟨[], []⟩ =
      (⟨[], []⟩, none) := by
  constructor
  · decide
  · decide

end Theorems
